import Mathlib

/-!
Verification of the outlet-orm core: a shallow embedding of the query
builder IR, the SQL where-clause compiler, the entity model (casting,
hidden projection, dirty tracking), the relation engine's eager loading
(with a call-counting mock driver), and the migration runner's rollback.
Each definition is translated from the corresponding JavaScript source
file; machine values are modelled by an explicit JS-like value type.
-/

namespace OutletOrm

/-- JS-like scalar runtime value (the attribute values the ORM moves
around: numbers, strings, booleans, null/undefined, and NaN as produced
by `parseInt`).  Arrays/objects as attribute values are outside the
scope of the claims. -/
inductive Val where
  | vInt : Int → Val
  | vStr : String → Val
  | vBool : Bool → Val
  | vNull : Val
  | vNaN : Val
deriving DecidableEq, Repr

/-- A JS object with scalar values: ordered key/value list, keys unique
by construction through `objSetD`. -/
abbrev Obj := List (String × Val)

/-- First-match lookup (JS property read; keys are unique in real JS
objects). -/
def objGet {α : Type} (j : List (String × α)) (k : String) : Option α :=
  (j.find? (fun p => p.1 = k)).map (fun p => p.2)

/-- JS `obj[k] = v`: replace in place when the key exists, else append. -/
def objSetD {α : Type} (j : List (String × α)) (k : String) (v : α) :
    List (String × α) :=
  if j.any (fun p => p.1 = k) then
    j.map (fun p => if p.1 = k then (k, v) else p)
  else
    j ++ [(k, v)]

/-- JS `delete obj[k]`. -/
def objDelete {α : Type} (j : List (String × α)) (k : String) :
    List (String × α) :=
  j.filter (fun p => p.1 ≠ k)

/-- JS `Object.assign(target, src)`: overlay every entry of `src`. -/
def objAssignAll {α : Type} (j src : List (String × α)) :
    List (String × α) :=
  src.foldl (fun acc p => objSetD acc p.1 p.2) j

/-- JS `String(v)` / template-literal coercion. -/
def jsToString : Val → String
  | Val.vInt i => toString i
  | Val.vStr s => s
  | Val.vBool b => if b then "true" else "false"
  | Val.vNull => "null"
  | Val.vNaN => "NaN"

/-- JS truthiness (`0`, `""`, `null`, `NaN`, `false` are falsy). -/
def valTruthy : Val → Bool
  | Val.vInt i => i ≠ 0
  | Val.vStr s => s ≠ ""
  | Val.vBool b => b
  | Val.vNull => false
  | Val.vNaN => false

/-- Digits of a decimal prefix folded into a natural number. -/
def digitsToNat (s : List Char) : Nat :=
  s.foldl (fun n c => n * 10 + (c.toNat - '0'.toNat)) 0

/-- Optional leading sign: negativity flag and the remaining
characters. -/
def stripSign : List Char → Bool × List Char
  | '-' :: cs => (true, cs)
  | '+' :: cs => (false, cs)
  | cs => (false, cs)

/-- Leading-whitespace removal on the character list. -/
def trimLeftChars : List Char → List Char
  | [] => []
  | c :: cs => if c.isWhitespace then trimLeftChars cs else c :: cs

/-- JS `parseInt(x, 10)` on the string form of the argument: skip
leading whitespace, read an optional sign, then the longest digit
prefix; `NaN` when no digit is found. -/
def jsParseInt (s : String) : Val :=
  let sr := stripSign (trimLeftChars s.toList)
  let digits := sr.2.takeWhile Char.isDigit
  if digits.isEmpty then Val.vNaN
  else if sr.1 then Val.vInt (-(digitsToNat digits : Int))
  else Val.vInt (digitsToNat digits)

/-- A string with no base-10 digit right after its optional whitespace
and sign; exactly the strings on which `parseInt(s, 10)` yields NaN. -/
def nonNumericStr (s : String) : Bool :=
  ((stripSign (trimLeftChars s.toList)).2.takeWhile Char.isDigit).isEmpty

/-- `JSON.stringify` on scalar values (NaN serialises as `null`). -/
def jsonStringify : Val → String
  | Val.vInt i => toString i
  | Val.vStr s => "\"" ++ s ++ "\""
  | Val.vBool b => if b then "true" else "false"
  | Val.vNull => "null"
  | Val.vNaN => "null"

/-! ## Query IR (QueryBuilder.js) -/

/-- The exclusive set of predicate variants pushed by the builder
(`type` field of a where record). -/
inductive WhereType where
  | basic | inn | notIn | null | notNull | between | like
deriving DecidableEq, Repr

/-- A where record as pushed by the builder methods
(`{ column, operator, value, values, type, boolean }`). -/
structure WherePred where
  type : WhereType
  column : String
  operator : String := "="
  value : Val := Val.vNull
  values : List Val := []
  boolean : String := "and"
deriving DecidableEq, Repr

/-- A join record (`{ table, first, operator, second, type }`);
`type` is `"inner"` or `"left"`. -/
structure Join where
  table : String
  first : String
  operator : String := "="
  second : String
  type : String := "inner"
deriving DecidableEq, Repr

/-- A having record (`type` is `"basic"` or `"count"`). -/
structure Having where
  type : String
  column : String
  operator : String
  value : Val
deriving DecidableEq, Repr

/-- QueryBuilder mutable state (src/src/QueryBuilder.js constructor,
second revision).  `showHidden` embeds the `_showHidden` field;
constraint callbacks are represented by opaque identifiers. -/
structure Builder where
  wheres : List WherePred := []
  orders : List (String × String) := []
  limitValue : Option Nat := none
  offsetValue : Option Nat := none
  selectedColumns : List String := ["*"]
  withRelations : List String := []
  withConstraints : List (String × Nat) := []
  joins : List Join := []
  distinctFlag : Bool := false
  groupBys : List String := []
  havings : List Having := []
  showHidden : Bool := false
deriving DecidableEq, Repr

def emptyBuilder : Builder := {}

/-- `where(column, operator, value)` with all three arguments. -/
def Builder.whereBasic (b : Builder) (column operator : String) (v : Val) :
    Builder :=
  { b with wheres := b.wheres ++
      [{ type := WhereType.basic, column := column, operator := operator,
         value := v }] }

/-- `where(column, value)` (operator defaults to `=`). -/
def Builder.whereEq (b : Builder) (column : String) (v : Val) : Builder :=
  b.whereBasic column "=" v

/-- `whereIn(column, values)`. -/
def Builder.whereIn (b : Builder) (column : String) (vs : List Val) :
    Builder :=
  { b with wheres := b.wheres ++
      [{ type := WhereType.inn, column := column, values := vs }] }

/-- `whereNotIn(column, values)`. -/
def Builder.whereNotIn (b : Builder) (column : String) (vs : List Val) :
    Builder :=
  { b with wheres := b.wheres ++
      [{ type := WhereType.notIn, column := column, values := vs }] }

/-- `whereNull(column)`. -/
def Builder.whereNull (b : Builder) (column : String) : Builder :=
  { b with wheres := b.wheres ++
      [{ type := WhereType.null, column := column }] }

/-- `whereNotNull(column)`. -/
def Builder.whereNotNull (b : Builder) (column : String) : Builder :=
  { b with wheres := b.wheres ++
      [{ type := WhereType.notNull, column := column }] }

/-- `orWhere(column, operator, value)`. -/
def Builder.orWhere (b : Builder) (column operator : String) (v : Val) :
    Builder :=
  { b with wheres := b.wheres ++
      [{ type := WhereType.basic, column := column, operator := operator,
         value := v, boolean := "or" }] }

/-- `whereBetween(column, values)`. -/
def Builder.whereBetween (b : Builder) (column : String) (vs : List Val) :
    Builder :=
  { b with wheres := b.wheres ++
      [{ type := WhereType.between, column := column, values := vs }] }

/-- `whereLike(column, value)`. -/
def Builder.whereLike (b : Builder) (column : String) (v : Val) : Builder :=
  { b with wheres := b.wheres ++
      [{ type := WhereType.like, column := column, value := v }] }

/-- `orderBy(column, direction)` (direction lower-cased). -/
def Builder.orderBy (b : Builder) (column direction : String) : Builder :=
  { b with orders := b.orders ++ [(column, direction.toLower)] }

/-- `limit(value)`. -/
def Builder.limit (b : Builder) (n : Nat) : Builder :=
  { b with limitValue := some n }

/-- `offset(value)`. -/
def Builder.offset (b : Builder) (n : Nat) : Builder :=
  { b with offsetValue := some n }

/-- `groupBy(...columns)`. -/
def Builder.groupBy (b : Builder) (cols : List String) : Builder :=
  { b with groupBys := b.groupBys ++ cols }

/-- `having(column, operator, value)`. -/
def Builder.having (b : Builder) (column operator : String) (v : Val) :
    Builder :=
  { b with havings := b.havings ++
      [{ type := "basic", column := column, operator := operator,
         value := v }] }

/-- `join(table, first, operator, second)`. -/
def Builder.join (b : Builder) (table first operator second : String) :
    Builder :=
  { b with joins := b.joins ++
      [{ table := table, first := first, operator := operator,
         second := second, type := "inner" }] }

/-- `leftJoin(table, first, operator, second)`. -/
def Builder.leftJoin (b : Builder) (table first operator second : String) :
    Builder :=
  { b with joins := b.joins ++
      [{ table := table, first := first, operator := operator,
         second := second, type := "left" }] }

/-- `with(...relations)` in its plain string-list form. -/
def Builder.withRels (b : Builder) (rels : List String) : Builder :=
  { b with withRelations := b.withRelations ++ rels }

/-- The object literal returned by `buildQuery()`. -/
structure Query where
  columns : List String
  wheres : List WherePred
  orders : List (String × String)
  joins : List Join
  distinct : Bool
  groupBys : List String
  havings : List Having
  limit : Option Nat
  offset : Option Nat
deriving DecidableEq, Repr

/-- `buildQuery()`. -/
def Builder.buildQuery (b : Builder) : Query :=
  { columns := b.selectedColumns, wheres := b.wheres, orders := b.orders,
    joins := b.joins, distinct := b.distinctFlag, groupBys := b.groupBys,
    havings := b.havings, limit := b.limitValue, offset := b.offsetValue }

/-- `clone()`: copies every IR list and scalar into a fresh builder.
Note the fresh builder's `_showHidden` stays at its constructor default
`false`; the source never copies it. -/
def Builder.clone (b : Builder) : Builder :=
  { wheres := b.wheres, orders := b.orders, limitValue := b.limitValue,
    offsetValue := b.offsetValue, selectedColumns := b.selectedColumns,
    withRelations := b.withRelations, withConstraints := b.withConstraints,
    joins := b.joins, distinctFlag := b.distinctFlag,
    groupBys := b.groupBys, havings := b.havings }

/-! ## WHERE-clause compiler (DatabaseConnection.buildWhereClause) -/

/-- `'?, ?, …'` with `n` placeholders (`getPlaceholders`). -/
def placeholders : Nat → String
  | 0 => ""
  | 1 => "?"
  | n + 2 => "?, " ++ placeholders (n + 1)

/-- The fragment and parameter contribution of one predicate, given the
leading keyword (`WHERE` for the first predicate, the upper-cased
connector otherwise). -/
def predPiece (boolean : String) (w : WherePred) : String × List Val :=
  match w.type with
  | WhereType.basic =>
      (boolean ++ " " ++ w.column ++ " " ++ w.operator ++ " ?", [w.value])
  | WhereType.inn =>
      (boolean ++ " " ++ w.column ++ " IN (" ++
        placeholders w.values.length ++ ")", w.values)
  | WhereType.notIn =>
      (boolean ++ " " ++ w.column ++ " NOT IN (" ++
        placeholders w.values.length ++ ")", w.values)
  | WhereType.null => (boolean ++ " " ++ w.column ++ " IS NULL", [])
  | WhereType.notNull => (boolean ++ " " ++ w.column ++ " IS NOT NULL", [])
  | WhereType.between =>
      (boolean ++ " " ++ w.column ++ " BETWEEN ? AND ?", w.values)
  | WhereType.like => (boolean ++ " " ++ w.column ++ " LIKE ?", [w.value])

/-- The forEach loop of `buildWhereClause`: collect clause fragments and
parameters, tracking whether we are at the first predicate. -/
def wherePieces : Bool → List WherePred → List String × List Val
  | _, [] => ([], [])
  | first, w :: ws =>
      let boolean := if first then "WHERE" else w.boolean.toUpper
      let p := predPiece boolean w
      let rest := wherePieces false ws
      (p.1 :: rest.1, p.2 ++ rest.2)

/-- `buildWhereClause(wheres)`: `' ' + clauses.join(' ')` and the
parameter vector; empty input yields the empty clause. -/
def buildWhereClause (ws : List WherePred) : String × List Val :=
  if ws.isEmpty then ("", [])
  else
    let p := wherePieces true ws
    (" " ++ String.intercalate " " p.1, p.2)

/-- `DatabaseConnection.count(table, query)`: SQL text and parameters of
the single statement it executes.  Only `query.wheres` is consulted. -/
def countQuery (table : String) (q : Query) : String × List Val :=
  let wc := buildWhereClause q.wheres
  ("SELECT COUNT(*) as count FROM " ++ table ++ wc.1, wc.2)

/-- The value parameters a predicate contributes, in the claim's words
("with their parameters in order"): one entry per value-bearing slot,
`in`/`between` contributing their whole array. -/
def specParams (w : WherePred) : List Val :=
  match w.type with
  | WhereType.basic => [w.value]
  | WhereType.inn => w.values
  | WhereType.notIn => w.values
  | WhereType.null => []
  | WhereType.notNull => []
  | WhereType.between => w.values
  | WhereType.like => [w.value]

/-- Join emission as `buildSelectQuery` renders it; used to express the
claim's "count preserves the chain's joins" reading. -/
def joinClauses (js : List Join) : String :=
  js.foldl (fun s j =>
    s ++ " " ++ (if j.type = "left" then "LEFT JOIN" else "INNER JOIN") ++
      " " ++ j.table ++ " ON " ++ j.first ++ " " ++
      (if j.operator = "" then "=" else j.operator) ++ " " ++ j.second) ""

/-- Modelled from the spec sentence of claim C2: the COUNT statement the
claim describes, with the chain's joins preserved between the FROM and
WHERE clauses.  This is the claim's reading, to be compared with
`countQuery` (the code's behaviour). -/
def countSqlClaimed (table : String) (q : Query) : String :=
  "SELECT COUNT(*) as count FROM " ++ table ++ joinClauses q.joins ++
    (buildWhereClause q.wheres).1

/-- Number of `?` placeholders in a fragment. -/
def countQmarks (s : String) : Nat :=
  s.toList.countP (fun c => c = '?')

/-! ## Entity model (Model.js, the `_showHidden`-aware revision) -/

/-- Cast kinds with exact scalar semantics; the claims exercise only the
`int` cast (the source also knows `float`, `json`, `date`, whose values
fall outside the scalar value model and outside every claim). -/
inductive CastKind where
  | int | str | bool
deriving DecidableEq, Repr

/-- Class-side statics of a model (`static table`, `static primaryKey`,
`static timestamps`, `static fillable`, `static hidden`,
`static casts`). -/
structure ModelClass where
  table : String
  primaryKey : String := "id"
  timestamps : Bool := true
  fillable : List String := []
  hidden : List String := []
  casts : List (String × CastKind) := []
deriving DecidableEq, Repr

/-- Instance state without the relation cache (attributes, original
snapshot, `exists`, `_showHidden`). -/
structure EntCore where
  attributes : Obj := []
  original : Obj := []
  existsFlag : Bool := false
  showHidden : Bool := false
deriving DecidableEq, Repr

/-- A relation-cache entry: `null`, a single related entity, or an array
of related entities.  Related entities are stored one level deep; a
freshly hydrated instance has an empty relation cache, which is the
state in which the eager loader stores it. -/
inductive RelVal where
  | rnull : RelVal
  | one : EntCore → RelVal
  | many : List EntCore → RelVal
deriving DecidableEq, Repr

/-- Full instance state: core plus the relation cache. -/
structure Ent extends EntCore where
  relations : List (String × RelVal) := []
deriving DecidableEq, Repr

/-- `castAttribute(key, value)`: look up the cast, bypass on
null/undefined, otherwise apply the cast kind.  The `int` branch is
JS `parseInt(value, 10)`. -/
def castAttribute (cls : ModelClass) (key : String) (v : Val) : Val :=
  match objGet cls.casts key with
  | Option.none => v
  | Option.some c =>
      if v = Val.vNull then v
      else
        match c with
        | CastKind.int => jsParseInt (jsToString v)
        | CastKind.str => Val.vStr (jsToString v)
        | CastKind.bool => Val.vBool (valTruthy v)

/-- `setAttribute(key, value)`: store the casted value. -/
def setAttribute (cls : ModelClass) (e : Ent) (key : String) (v : Val) :
    Ent :=
  { e with attributes := objSetD e.attributes key (castAttribute cls key v) }

/-- Truthiness of a relation-cache slot (`if (this.relations[key])`):
a JS array is truthy even when empty; `null` is falsy. -/
def relSlotTruthy : Option RelVal → Bool
  | Option.some (RelVal.one _) => true
  | Option.some (RelVal.many _) => true
  | Option.some RelVal.rnull => false
  | Option.none => false

/-- The value `getAttribute` yields: a relation-cache entry or a casted
attribute. -/
inductive Dyn where
  | v : Val → Dyn
  | r : RelVal → Dyn
deriving DecidableEq, Repr

/-- `getAttribute(key)`: the relation cache shadows attributes when its
entry is truthy; otherwise the casted attribute. -/
def getAttribute (cls : ModelClass) (e : Ent) (key : String) : Dyn :=
  if relSlotTruthy (objGet e.relations key) then
    Dyn.r ((objGet e.relations key).getD RelVal.rnull)
  else
    Dyn.v (castAttribute cls key ((objGet e.attributes key).getD Val.vNull))

/-- `getAttribute` restricted to key columns.  The relation engine reads
join keys (`id`, `user_id`, …) through `getAttribute`; key columns are
never relation-cache names, so the attribute branch is the one taken. -/
def modelKey (cls : ModelClass) (e : Ent) (key : String) : Val :=
  castAttribute cls key ((objGet e.attributes key).getD Val.vNull)

/-- A serialized-object entry: a primitive attribute or an overlaid
relation-cache value. -/
inductive JVal where
  | prim : Val → JVal
  | rel : RelVal → JVal
deriving DecidableEq, Repr

/-- `toJSON()`: shallow-copy the attributes, delete every hidden key
unless `_showHidden`, then `Object.assign` the relation cache on top. -/
def toJSON (cls : ModelClass) (e : Ent) : List (String × JVal) :=
  let json := e.attributes.map (fun p => (p.1, JVal.prim p.2))
  let json :=
    if e.showHidden then json
    else cls.hidden.foldl (fun j k => objDelete j k) json
  objAssignAll json (e.relations.map (fun p => (p.1, JVal.rel p.2)))

/-- `JSON.stringify` lifted to a possibly-absent property
(`JSON.stringify(undefined)` is `undefined`, modelled as `none`). -/
def jstr : Option Val → Option String
  | Option.none => Option.none
  | Option.some v => Option.some (jsonStringify v)

/-- `getDirty()`: every attribute whose stringified form differs from
the stringified form of the snapshot entry under the same key. -/
def getDirty (e : Ent) : Obj :=
  e.attributes.filter
    (fun p => jstr (Option.some p.2) ≠ jstr (objGet e.original p.1))

/-- `isDirty()`. -/
def isDirty (e : Ent) : Bool :=
  !(getDirty e).isEmpty

/-- `QueryBuilder.hydrate(row)`: raw attributes, snapshot copy, `exists`
set, and the builder's `_showHidden` propagated. -/
def hydrate (b : Builder) (row : Obj) : Ent :=
  { attributes := row, original := row, existsFlag := true,
    showHidden := b.showHidden, relations := [] }

/-- `model.relations[name] = value`. -/
def setRel (e : Ent) (name : String) (rv : RelVal) : Ent :=
  { e with relations := objSetD e.relations name rv }

/-! ## Mock driver

The driver adapter is an external collaborator (the spec places
transport internals out of scope); queries the ORM emits are executed
here against an in-memory table map with standard SQL semantics for the
predicate forms the ORM produces. -/

/-- Database: table name → rows. -/
abbrev DB := List (String × List Obj)

/-- `%`-wildcard matching for LIKE after the leading segment has been
consumed: each middle segment must occur in order, the final segment
must be a suffix. -/
def likeSegs : String → List String → Bool
  | s, [] => s = ""
  | s, [last] => s.endsWith last
  | s, seg :: rest =>
      match s.splitOn seg with
      | [] => false
      | [_] => false
      | _ :: p1 :: ps => likeSegs (String.intercalate seg (p1 :: ps)) rest

/-- SQL LIKE with `%` wildcards. -/
def likeMatch (s pat : String) : Bool :=
  match pat.splitOn "%" with
  | [] => s = ""
  | [p] => s = p
  | p :: rest => s.startsWith p && likeSegs (s.drop p.length) rest

/-- SQL comparison of two scalar values under an operator string. -/
def sqlCmp (operator : String) (a b : Val) : Bool :=
  match operator with
  | "=" => a = b
  | "!=" => a ≠ b
  | "<>" => a ≠ b
  | "<" => match a, b with
    | Val.vInt x, Val.vInt y => x < y
    | _, _ => false
  | "<=" => match a, b with
    | Val.vInt x, Val.vInt y => x ≤ y
    | _, _ => false
  | ">" => match a, b with
    | Val.vInt x, Val.vInt y => x > y
    | _, _ => false
  | ">=" => match a, b with
    | Val.vInt x, Val.vInt y => x ≥ y
    | _, _ => false
  | _ => false

/-- Evaluate one predicate against a row (a missing column reads as
NULL). -/
def evalWhere (row : Obj) (w : WherePred) : Bool :=
  let cur := (objGet row w.column).getD Val.vNull
  match w.type with
  | WhereType.basic => sqlCmp w.operator cur w.value
  | WhereType.inn => w.values.contains cur
  | WhereType.notIn => !(w.values.contains cur)
  | WhereType.null => cur = Val.vNull
  | WhereType.notNull => cur ≠ Val.vNull
  | WhereType.between =>
      match cur, w.values with
      | Val.vInt x, [Val.vInt lo, Val.vInt hi] => lo ≤ x ∧ x ≤ hi
      | _, _ => false
  | WhereType.like => likeMatch (jsToString cur) (jsToString w.value)

/-- Rows of a table matching a conjunction of predicates (the ORM's
generated where lists are all AND-connected). -/
def matchingRows (db : DB) (table : String) (ws : List WherePred) :
    List Obj :=
  ((objGet db table).getD []).filter (fun r => ws.all (evalWhere r))

/-- `connection.select(table, query)`: filter, then OFFSET, then
LIMIT. -/
def dbSelect (db : DB) (table : String) (q : Query) : List Obj :=
  let matched := matchingRows db table q.wheres
  let off := matched.drop (q.offset.getD 0)
  match q.limit with
  | Option.some n => off.take n
  | Option.none => off

/-- `connection.count(table, query)` result: the number of rows
matching `query.wheres` (the emitted `SELECT COUNT(*)` has no joins,
orders, limit or offset). -/
def connCount (db : DB) (table : String) (q : Query) : Nat :=
  (matchingRows db table q.wheres).length

/-- `builder.get()` without eager loads: one SELECT, then hydration of
every row (sub-builders constructed inside the relation engine carry no
`with` declarations, so their `get` is exactly one driver query). -/
def bGet (db : DB) (cls : ModelClass) (b : Builder) : List Ent :=
  (dbSelect db cls.table b.buildQuery).map (hydrate b)

/-- The pagination result object.  `pageFrom`/`pageTo` embed the `from`/
`to` fields (reserved words in Lean). -/
structure PageResult where
  data : List Ent
  total : Nat
  per_page : Nat
  current_page : Nat
  last_page : Nat
  pageFrom : Option Nat
  pageTo : Nat
deriving DecidableEq, Repr

/-- `paginate(page, perPage)`: `count()` on the accumulated IR, then
`offset((page-1)*perPage).limit(perPage).get()`, then the result object.
`last_page` is `Math.ceil(total / perPage)`, computed for naturals
(`perPage ≥ 1`) as `(total + perPage - 1) / perPage`. -/
def paginate (db : DB) (cls : ModelClass) (b : Builder)
    (page perPage : Nat) : PageResult :=
  let off := (page - 1) * perPage
  let total := connCount db cls.table b.buildQuery
  let data := bGet db cls ((b.offset off).limit perPage)
  { data := data, total := total, per_page := perPage,
    current_page := page, last_page := (total + perPage - 1) / perPage,
    pageFrom := if total > 0 then Option.some (off + 1) else Option.none,
    pageTo := off + data.length }

/-! ## Relation engine

Each `eagerLoad` is embedded as a function from the database and the
batch of parents to the updated parents paired with the number of driver
queries it issued (terminal `get()` calls and direct `connection.select`
calls both count one).  Constraint callbacks are not passed (the claims
quantify over plain eager loads). -/

/-- Keys of hasOne/hasMany (`foreignKey` on related, `localKey` on
parent). -/
structure HasRel where
  parentCls : ModelClass
  related : ModelClass
  foreignKey : String
  localKey : String
deriving Repr

/-- Keys of belongsTo (`foreignKey` on child, `ownerKey` on related);
`defaultValue` embeds `withDefault`. -/
structure BelongsToRel where
  childCls : ModelClass
  related : ModelClass
  foreignKey : String
  ownerKey : String
  defaultValue : Option EntCore := Option.none
deriving Repr

/-- Keys of morphOne/morphMany (`<morphType>_type` discriminator plus
hasOne-style keys). -/
structure MorphRel where
  parentCls : ModelClass
  related : ModelClass
  morphType : String
  foreignKey : String
  localKey : String
deriving Repr

/-- Keys of belongsToMany; `wherePivotConditions` hold the normalized
pivot predicates the source re-wraps into the pivot query. -/
structure BtmRel where
  parentCls : ModelClass
  related : ModelClass
  pivot : String
  foreignPivotKey : String
  relatedPivotKey : String
  parentKey : String
  relatedKey : String
  wherePivotConditions : List WherePred := []
deriving Repr

/-- Keys of hasManyThrough/hasOneThrough. -/
structure ThroughRel where
  parentCls : ModelClass
  relatedFinal : ModelClass
  through : ModelClass
  foreignKeyOnThrough : String
  throughKeyOnFinal : String
  localKey : String
  throughLocalKey : String
deriving Repr

/-- morphTo configuration (`typeColumn`/`idColumn` on the child). -/
structure MorphToRel where
  childCls : ModelClass
  typeColumn : String
  idColumn : String
deriving Repr

/-- Build a single-entity map keyed by the string form of a key column
(JS object keys are strings; later entries overwrite earlier ones). -/
def keyedLast (cls : ModelClass) (key : String) (ents : List Ent) :
    List (String × EntCore) :=
  ents.foldl
    (fun acc r => objSetD acc (jsToString (modelKey cls r key)) r.toEntCore)
    []

/-- Build a grouping map keyed by the string form of a key column,
appending each entity to its group. -/
def keyedGroups (cls : ModelClass) (key : String) (ents : List Ent) :
    List (String × List EntCore) :=
  ents.foldl
    (fun acc r =>
      let k := jsToString (modelKey cls r key)
      match objGet acc k with
      | Option.some l => objSetD acc k (l ++ [r.toEntCore])
      | Option.none => acc ++ [(k, [r.toEntCore])])
    []

/-- `HasOneRelation.eagerLoad`: collect non-null parent local keys; one
`whereIn` SELECT; index related by foreign key (last wins); assign a
single entity or null per parent. -/
def hasOneEagerLoad (db : DB) (cfg : HasRel) (models : List Ent)
    (relName : String) : List Ent × Nat :=
  let keys := (models.map (fun m => modelKey cfg.parentCls m cfg.localKey)
    ).filter (fun k => k ≠ Val.vNull)
  if keys.isEmpty then (models, 0)
  else
    let qb := emptyBuilder.whereIn cfg.foreignKey keys
    let relatedModels := bGet db cfg.related qb
    let relatedMap := keyedLast cfg.related cfg.foreignKey relatedModels
    let assigned := models.map (fun m =>
      let k := jsToString (modelKey cfg.parentCls m cfg.localKey)
      setRel m relName
        (match objGet relatedMap k with
         | Option.some r => RelVal.one r
         | Option.none => RelVal.rnull))
    (assigned, 1)

/-- `HasManyRelation.eagerLoad`: same single SELECT, grouping related
rows per foreign key, assigning a (possibly empty) list per parent. -/
def hasManyEagerLoad (db : DB) (cfg : HasRel) (models : List Ent)
    (relName : String) : List Ent × Nat :=
  let keys := (models.map (fun m => modelKey cfg.parentCls m cfg.localKey)
    ).filter (fun k => k ≠ Val.vNull)
  if keys.isEmpty then (models, 0)
  else
    let qb := emptyBuilder.whereIn cfg.foreignKey keys
    let relatedModels := bGet db cfg.related qb
    let relatedMap := keyedGroups cfg.related cfg.foreignKey relatedModels
    let assigned := models.map (fun m =>
      let k := jsToString (modelKey cfg.parentCls m cfg.localKey)
      setRel m relName (RelVal.many ((objGet relatedMap k).getD [])))
    (assigned, 1)

/-- `BelongsToRelation.eagerLoad`: collect non-null child foreign keys;
one SELECT keyed by owner key; assign the match or the configured
default. -/
def belongsToEagerLoad (db : DB) (cfg : BelongsToRel) (models : List Ent)
    (relName : String) : List Ent × Nat :=
  let keys := (models.map (fun m => modelKey cfg.childCls m cfg.foreignKey)
    ).filter (fun k => k ≠ Val.vNull)
  if keys.isEmpty then (models, 0)
  else
    let qb := emptyBuilder.whereIn cfg.ownerKey keys
    let relatedModels := bGet db cfg.related qb
    let relatedMap := keyedLast cfg.related cfg.ownerKey relatedModels
    let assigned := models.map (fun m =>
      let k := jsToString (modelKey cfg.childCls m cfg.foreignKey)
      setRel m relName
        (match objGet relatedMap k with
         | Option.some r => RelVal.one r
         | Option.none =>
             match cfg.defaultValue with
             | Option.some d => RelVal.one d
             | Option.none => RelVal.rnull))
    (assigned, 1)

/-- `MorphOneRelation.eagerLoad`: one SELECT with the `whereIn` on the
foreign key plus the `<morphType>_type = parent table` predicate (keys
are not null-filtered in the source); single assignment per parent. -/
def morphOneEagerLoad (db : DB) (cfg : MorphRel) (models : List Ent)
    (relName : String) : List Ent × Nat :=
  let keys := models.map (fun m => modelKey cfg.parentCls m cfg.localKey)
  let qb := (emptyBuilder.whereIn cfg.foreignKey keys).whereEq
    (cfg.morphType ++ "_type") (Val.vStr cfg.parentCls.table)
  let relatedModels := bGet db cfg.related qb
  let relatedMap := keyedLast cfg.related cfg.foreignKey relatedModels
  let assigned := models.map (fun m =>
    let k := jsToString (modelKey cfg.parentCls m cfg.localKey)
    setRel m relName
      (match objGet relatedMap k with
       | Option.some r => RelVal.one r
       | Option.none => RelVal.rnull))
  (assigned, 1)

/-- `MorphManyRelation.eagerLoad`: as morphOne but grouping to lists. -/
def morphManyEagerLoad (db : DB) (cfg : MorphRel) (models : List Ent)
    (relName : String) : List Ent × Nat :=
  let keys := models.map (fun m => modelKey cfg.parentCls m cfg.localKey)
  let qb := (emptyBuilder.whereIn cfg.foreignKey keys).whereEq
    (cfg.morphType ++ "_type") (Val.vStr cfg.parentCls.table)
  let relatedModels := bGet db cfg.related qb
  let relatedMap := keyedGroups cfg.related cfg.foreignKey relatedModels
  let assigned := models.map (fun m =>
    let k := jsToString (modelKey cfg.parentCls m cfg.localKey)
    setRel m relName (RelVal.many ((objGet relatedMap k).getD [])))
  (assigned, 1)

/-- `BelongsToManyRelation.eagerLoad`: one pivot SELECT batched by
parent keys; if the pivot is empty assign `[]` everywhere, else one
related SELECT over the de-duplicated related ids and a
pivot-key-driven grouping per parent.  (The pivot payload attached
under `pivotAlias` carries no claim and is not modelled.) -/
def belongsToManyEagerLoad (db : DB) (cfg : BtmRel) (models : List Ent)
    (relName : String) : List Ent × Nat :=
  let parentKeys := (models.map
      (fun m => modelKey cfg.parentCls m cfg.parentKey)
    ).filter (fun k => k ≠ Val.vNull)
  if parentKeys.isEmpty then (models, 0)
  else
    let pivotQ : Query :=
      { columns := [cfg.foreignPivotKey, cfg.relatedPivotKey],
        wheres := { type := WhereType.inn, column := cfg.foreignPivotKey,
                    values := parentKeys } :: cfg.wherePivotConditions,
        orders := [], joins := [], distinct := false, groupBys := [],
        havings := [], limit := Option.none, offset := Option.none }
    let pivotRecords := dbSelect db cfg.pivot pivotQ
    if pivotRecords.isEmpty then
      (models.map (fun m => setRel m relName (RelVal.many [])), 1)
    else
      let relatedIds := (pivotRecords.map
          (fun r => (objGet r cfg.relatedPivotKey).getD Val.vNull)).dedup
      let qb := emptyBuilder.whereIn cfg.relatedKey relatedIds
      let relatedModels := bGet db cfg.related qb
      let relatedMap := keyedLast cfg.related cfg.relatedKey relatedModels
      let parentToRelated := pivotRecords.foldl
        (fun acc r =>
          let pk := jsToString ((objGet r cfg.foreignPivotKey).getD Val.vNull)
          let rk := jsToString ((objGet r cfg.relatedPivotKey).getD Val.vNull)
          let cur := (objGet acc pk).getD []
          match objGet relatedMap rk with
          | Option.some e => objSetD acc pk (cur ++ [e])
          | Option.none => objSetD acc pk cur)
        ([] : List (String × List EntCore))
      let assigned := models.map (fun m =>
        let k := jsToString (modelKey cfg.parentCls m cfg.parentKey)
        setRel m relName (RelVal.many ((objGet parentToRelated k).getD [])))
      (assigned, 2)

/-- `HasManyThroughRelation.eagerLoad`: SELECT the through rows batched
by parent keys (assigning `[]` when no parent keys or no through rows),
then one SELECT of the finals over the de-duplicated through ids, then
the two-level grouping. -/
def hasManyThroughEagerLoad (db : DB) (cfg : ThroughRel)
    (models : List Ent) (relName : String) : List Ent × Nat :=
  let parentKeys := (models.map
      (fun m => modelKey cfg.parentCls m cfg.localKey)
    ).filter (fun k => k ≠ Val.vNull)
  if parentKeys.isEmpty then
    (models.map (fun m => setRel m relName (RelVal.many [])), 0)
  else
    let throughRows := bGet db cfg.through
      (emptyBuilder.whereIn cfg.foreignKeyOnThrough parentKeys)
    if throughRows.isEmpty then
      (models.map (fun m => setRel m relName (RelVal.many [])), 1)
    else
      let parentToThroughIds := throughRows.foldl
        (fun acc r =>
          let pk := jsToString
            (modelKey cfg.through r cfg.foreignKeyOnThrough)
          let tId := modelKey cfg.through r cfg.throughLocalKey
          objSetD acc pk (((objGet acc pk).getD []) ++ [tId]))
        ([] : List (String × List Val))
      let allThroughIds := (throughRows.map
          (fun r => modelKey cfg.through r cfg.throughLocalKey)).dedup
      let finals := bGet db cfg.relatedFinal
        (emptyBuilder.whereIn cfg.throughKeyOnFinal allThroughIds)
      let finalsByThrough :=
        keyedGroups cfg.relatedFinal cfg.throughKeyOnFinal finals
      let assigned := models.map (fun m =>
        let pk := jsToString (modelKey cfg.parentCls m cfg.localKey)
        let tIds := (objGet parentToThroughIds pk).getD []
        let collected := tIds.foldl
          (fun acc tId =>
            acc ++ ((objGet finalsByThrough (jsToString tId)).getD []))
          ([] : List EntCore)
        setRel m relName (RelVal.many collected))
      (assigned, 2)

/-- `HasOneThroughRelation.eagerLoad`: as hasManyThrough but keeping one
through id per parent (last wins), one final per through id, and the
JS-truthiness guard `tId ? … : null` on the through id. -/
def hasOneThroughEagerLoad (db : DB) (cfg : ThroughRel)
    (models : List Ent) (relName : String) : List Ent × Nat :=
  let parentKeys := (models.map
      (fun m => modelKey cfg.parentCls m cfg.localKey)
    ).filter (fun k => k ≠ Val.vNull)
  if parentKeys.isEmpty then
    (models.map (fun m => setRel m relName RelVal.rnull), 0)
  else
    let throughRows := bGet db cfg.through
      (emptyBuilder.whereIn cfg.foreignKeyOnThrough parentKeys)
    if throughRows.isEmpty then
      (models.map (fun m => setRel m relName RelVal.rnull), 1)
    else
      let parentToThroughId := throughRows.foldl
        (fun acc r =>
          let pk := jsToString
            (modelKey cfg.through r cfg.foreignKeyOnThrough)
          objSetD acc pk (modelKey cfg.through r cfg.throughLocalKey))
        ([] : List (String × Val))
      let allThroughIds := (parentToThroughId.map (fun p => p.2))
      let finals := bGet db cfg.relatedFinal
        (emptyBuilder.whereIn cfg.throughKeyOnFinal allThroughIds)
      let finalsByThrough :=
        keyedLast cfg.relatedFinal cfg.throughKeyOnFinal finals
      let assigned := models.map (fun m =>
        let pk := jsToString (modelKey cfg.parentCls m cfg.localKey)
        let rv :=
          match objGet parentToThroughId pk with
          | Option.some tId =>
              if valTruthy tId then
                match objGet finalsByThrough (jsToString tId) with
                | Option.some f => RelVal.one f
                | Option.none => RelVal.rnull
              else RelVal.rnull
          | Option.none => RelVal.rnull
        setRel m relName rv)
      (assigned, 2)

/-- The morphMap (`alias → model class`). -/
abbrev MorphMap := List (String × ModelClass)

/-- `MorphToRelation.resolveMorphClass`: the morphMap entry, or null. -/
def resolveMorphClass (map : MorphMap) (morphType : String) :
    Option ModelClass :=
  objGet map morphType

/-- `MorphToRelation.get`: read the type and id columns; null when
either is falsy or the type has no morphMap entry; otherwise one SELECT
by the target's primary key (`first()` semantics: head of the result). -/
def morphToGet (map : MorphMap) (db : DB) (cfg : MorphToRel) (child : Ent) :
    Option Ent :=
  let morphType := modelKey cfg.childCls child cfg.typeColumn
  let morphId := modelKey cfg.childCls child cfg.idColumn
  if !(valTruthy morphType && valTruthy morphId) then Option.none
  else
    match resolveMorphClass map (jsToString morphType) with
    | Option.none => Option.none
    | Option.some relatedCls =>
        (bGet db relatedCls
          ((emptyBuilder.whereEq relatedCls.primaryKey morphId).limit 1)
        ).head?

/-- The grouping loop of `MorphToRelation.eagerLoad`: children with
truthy type and id, grouped by the string form of the type, each group
accumulating its ids in order. -/
def morphGroups (cfg : MorphToRel) (models : List Ent) :
    List (String × List Val) :=
  models.foldl
    (fun acc m =>
      let t := modelKey cfg.childCls m cfg.typeColumn
      let i := modelKey cfg.childCls m cfg.idColumn
      if valTruthy t && valTruthy i then
        let k := jsToString t
        objSetD acc k (((objGet acc k).getD []) ++ [i])
      else acc)
    []

/-- The per-type SELECT loop of `MorphToRelation.eagerLoad`: each group
whose type resolves in the morphMap contributes one query and one
id-indexed map of the related rows; unresolved groups are skipped
(`continue`). -/
def morphTypeMaps (map : MorphMap) (db : DB)
    (groups : List (String × List Val)) :
    List (String × List (String × EntCore)) :=
  groups.filterMap (fun g =>
    match resolveMorphClass map g.1 with
    | Option.none => Option.none
    | Option.some relatedCls =>
        let relatedModels := bGet db relatedCls
          (emptyBuilder.whereIn relatedCls.primaryKey g.2)
        Option.some
          (g.1, keyedLast relatedCls relatedCls.primaryKey relatedModels))

/-- `MorphToRelation.eagerLoad`: group children by type, then for each
group whose type resolves in the morphMap issue one SELECT over the
group's ids (unresolved groups are skipped and their children left
untouched); assign each grouped child its match by id or null. -/
def morphToEagerLoad (map : MorphMap) (db : DB) (cfg : MorphToRel)
    (models : List Ent) (relName : String) : List Ent × Nat :=
  let typeMaps := morphTypeMaps map db (morphGroups cfg models)
  let assigned := models.map (fun m =>
    let t := modelKey cfg.childCls m cfg.typeColumn
    let i := modelKey cfg.childCls m cfg.idColumn
    if valTruthy t && valTruthy i then
      match objGet typeMaps (jsToString t) with
      | Option.some relatedMap =>
          setRel m relName
            (match objGet relatedMap (jsToString i) with
             | Option.some r => RelVal.one r
             | Option.none => RelVal.rnull)
      | Option.none => m
    else m)
  (assigned, typeMaps.length)

/-! ## Migration runner (lib/Migrations/MigrationManager.js) -/

/-- A tracking-table row (`migrations(id, migration, batch, …)`); rows
are stored in insertion order with strictly increasing ids. -/
structure MigRecord where
  id : Nat
  migration : String
  batch : Int
deriving DecidableEq, Repr

/-- The unit catalogue: file identifier → whether its `down()` succeeds
when invoked. -/
abbrev MigUnits := List (String × Bool)

/-- `ORDER BY batch DESC, id DESC` comparison. -/
def migDescLE (a b : MigRecord) : Bool :=
  a.batch > b.batch ∨ (a.batch = b.batch ∧ a.id ≥ b.id)

/-- Insertion into a list sorted by `migDescLE`. -/
def migInsertDesc (r : MigRecord) : List MigRecord → List MigRecord
  | [] => [r]
  | x :: xs =>
      if migDescLE r x then r :: x :: xs else x :: migInsertDesc r xs

/-- Sort descending by `(batch, id)`. -/
def migSortDesc (rs : List MigRecord) : List MigRecord :=
  rs.foldr migInsertDesc []

/-- `getLastBatchMigrations(steps)`:
`WHERE batch >= MAX(batch) - (steps - 1) ORDER BY batch DESC, id DESC`
(an empty tracking table selects nothing: the NULL max fails the
comparison on every row, of which there are none anyway). -/
def getLastBatchMigrations (records : List MigRecord) (steps : Nat) :
    List MigRecord :=
  match records with
  | [] => []
  | r :: rs =>
      let mx := rs.foldl (fun a x => max a x.batch) r.batch
      migSortDesc
        ((r :: rs).filter (fun x => x.batch ≥ mx - ((steps : Int) - 1)))

/-- The rollback loop: for each selected record in iteration order,
invoke `down()`; on success delete the tracking row and continue, on
failure stop with the row still recorded (the error propagates).
Returns the sequence of `down()` invocations and the surviving
records. -/
def rollbackLoop (units : MigUnits) :
    List MigRecord → List MigRecord → List String × List MigRecord
  | recs, [] => ([], recs)
  | recs, m :: rest =>
      if (objGet units m.migration).getD false then
        let recs' := recs.filter (fun r => r.migration ≠ m.migration)
        let res := rollbackLoop units recs' rest
        (m.migration :: res.1, res.2)
      else ([m.migration], recs)

/-- `rollback(steps)`: select the last `steps` batches, then iterate
over `migrations.reverse()` — since the SQL already ordered descending,
the loop visits the selected rows in ascending `(batch, id)` order. -/
def rollback (units : MigUnits) (records : List MigRecord) (steps : Nat) :
    List String × List MigRecord :=
  let migs := getLastBatchMigrations records steps
  if migs.isEmpty then ([], records)
  else rollbackLoop units records migs.reverse

/-- A fresh entity (`new Model()` before any fill). -/
def emptyEnt : Ent := {}

/-- Sample class with a single int-cast attribute. -/
def usersIntCls : ModelClass :=
  { table := "users", casts := [("age", CastKind.int)] }

/-! ## Concrete fixtures -/

def usersCls : ModelClass := { table := "users" }

def postsCls : ModelClass := { table := "posts" }

def rolesCls : ModelClass := { table := "roles" }

def commentsCls : ModelClass := { table := "comments" }

/-- `morphTo('commentable')` on the comments model. -/
def commentableCfg : MorphToRel :=
  { childCls := commentsCls, typeColumn := "commentable_type",
    idColumn := "commentable_id" }

/-- A hydrated comment pointing at alias `t`, id `i`. -/
def morphChild (t : String) (i : Int) : Ent :=
  { attributes := [("commentable_type", Val.vStr t),
                   ("commentable_id", Val.vInt i)],
    original := [], existsFlag := true, showHidden := false,
    relations := [] }

/-- A morph map with three aliases. -/
def morphMap3 : MorphMap :=
  [("a", { table := "as" }), ("b", { table := "bs" }),
   ("c", { table := "cs" })]

/-- Three children, one per alias. -/
def morphChildren3 : List Ent :=
  [morphChild "a" 1, morphChild "b" 2, morphChild "c" 3]

/-- `belongsToMany(Role, 'role_user', 'user_id', 'role_id', 'id',
'id')`. -/
def rolesBtmCfg : BtmRel :=
  { parentCls := usersCls, related := rolesCls, pivot := "role_user",
    foreignPivotKey := "user_id", relatedPivotKey := "role_id",
    parentKey := "id", relatedKey := "id" }

/-- A database with one pivot row and one role. -/
def btmDb : DB :=
  [("role_user", [[("user_id", Val.vInt 1), ("role_id", Val.vInt 2)]]),
   ("roles", [[("id", Val.vInt 2)]])]

/-- A hydrated user with id 1. -/
def userEnt1 : Ent :=
  { attributes := [("id", Val.vInt 1)], original := [],
    existsFlag := true, showHidden := false, relations := [] }

/-- A comment whose type alias `videos` has no morph-map entry. -/
def videosChild : Ent := morphChild "videos" 1

/-- A morph map that only knows `posts`. -/
def postsOnlyMap : MorphMap := [("posts", postsCls)]

/-- A database holding the video row the unresolved child points at. -/
def videosDb : DB := [("videos", [[("id", Val.vInt 1)]])]

/-- A sample hasOne/hasMany configuration. -/
def samplePostsHasCfg : HasRel :=
  { parentCls := usersCls, related := postsCls, foreignKey := "user_id",
    localKey := "id" }

/-- A sample belongsTo configuration. -/
def samplePostBelongsCfg : BelongsToRel :=
  { childCls := usersCls, related := postsCls, foreignKey := "post_id",
    ownerKey := "id" }

/-- A sample morphOne/morphMany configuration. -/
def sampleMorphCfg : MorphRel :=
  { parentCls := usersCls, related := commentsCls,
    morphType := "commentable", foreignKey := "commentable_id",
    localKey := "id" }

/-- A sample through configuration. -/
def sampleThroughCfg : ThroughRel :=
  { parentCls := usersCls, relatedFinal := commentsCls,
    through := postsCls, foreignKeyOnThrough := "user_id",
    throughKeyOnFinal := "post_id", localKey := "id",
    throughLocalKey := "id" }

/-! ## Helper lemmas -/

theorem countQmarks_append (s t : String) :
    countQmarks (s ++ t) = countQmarks s + countQmarks t := by
  simp [countQmarks, String.toList, List.countP_append]

theorem predPiece_params (boolean : String) (w : WherePred) :
    (predPiece boolean w).2 = specParams w := by
  cases hw : w.type <;> simp [predPiece, specParams, hw]

theorem wherePieces_params (f : Bool) (ws : List WherePred) :
    (wherePieces f ws).2 = (ws.map specParams).flatten := by
  induction ws generalizing f with
  | nil => simp [wherePieces]
  | cons w ws ih => simp [wherePieces, predPiece_params, ih]

theorem buildWhereClause_params (ws : List WherePred) :
    (buildWhereClause ws).2 = (ws.map specParams).flatten := by
  unfold buildWhereClause
  split
  · next h => simp [List.isEmpty_iff.mp h]
  · exact wherePieces_params true ws

theorem objGet_objSetD_self {α : Type} (j : List (String × α))
    (k : String) (v : α) : objGet (objSetD j k v) k = Option.some v := by
  unfold objSetD objGet
  split
  · next hany =>
    induction j with
    | nil => simp at hany
    | cons p j ih =>
      by_cases hp : p.1 = k
      · simp [List.find?, hp]
      · simp only [List.any_cons, Bool.or_eq_true, decide_eq_true_eq] at hany
        rcases hany with h | h
        · exact absurd h hp
        · simpa [List.find?, hp] using ih (by simpa using h)
  · next hany =>
    rw [Bool.not_eq_true, List.any_eq_false] at hany
    have hnone : j.find? (fun p => p.1 = k) = Option.none := by
      rw [List.find?_eq_none]
      intro x hx
      simpa using hany x hx
    simp [List.find?_append, hnone, List.find?]

theorem mem_keys_objSetD {α : Type} {j : List (String × α)} {k : String}
    {v : α} {m : String}
    (h : m ∈ (objSetD j k v).map Prod.fst) :
    m ∈ j.map Prod.fst ∨ m = k := by
  unfold objSetD at h
  split at h
  · simp only [List.map_map, List.mem_map, Function.comp] at h
    rcases h with ⟨p, hp, he⟩
    by_cases hpk : p.1 = k
    · right
      simpa [hpk] using he.symm
    · left
      exact List.mem_map.mpr ⟨p, hp, by simpa [hpk] using he⟩
  · simp only [List.map_append, List.mem_append, List.map_cons,
      List.mem_singleton, List.map_nil] at h
    rcases h with h | h
    · exact Or.inl h
    · exact Or.inr (by simpa using h)

theorem mem_keys_objAssignAll {α : Type} :
    ∀ (src j : List (String × α)) (m : String),
      m ∈ (objAssignAll j src).map Prod.fst →
      m ∈ j.map Prod.fst ∨ m ∈ src.map Prod.fst := by
  intro src
  induction src with
  | nil => intro j m h; exact Or.inl (by simpa [objAssignAll] using h)
  | cons p src ih =>
    intro j m h
    have h' := ih (objSetD j p.1 p.2) m (by simpa [objAssignAll] using h)
    rcases h' with h' | h'
    · rcases mem_keys_objSetD h' with h'' | h''
      · exact Or.inl h''
      · exact Or.inr (by simp [h''])
    · exact Or.inr (by simp [h'])

theorem mem_keys_objDelete {α : Type} {j : List (String × α)} {k m : String}
    (h : m ∈ (objDelete j k).map Prod.fst) :
    m ∈ j.map Prod.fst ∧ m ≠ k := by
  unfold objDelete at h
  simp only [List.mem_map] at h
  rcases h with ⟨p, hp, he⟩
  have hmem := List.mem_of_mem_filter hp
  have hpred := List.of_mem_filter hp
  subst he
  exact ⟨List.mem_map.mpr ⟨p, hmem, rfl⟩, by simpa using hpred⟩

theorem mem_keys_hiddenFold {α : Type} :
    ∀ (hidden : List String) (j : List (String × α)) (m : String),
      m ∈ ((hidden.foldl (fun j k => objDelete j k) j).map Prod.fst) →
      m ∈ j.map Prod.fst ∧ m ∉ hidden := by
  intro hidden
  induction hidden with
  | nil => intro j m h; exact ⟨by simpa using h, by simp⟩
  | cons k hs ih =>
    intro j m h
    have h' := ih (objDelete j k) m (by simpa using h)
    rcases h' with ⟨h1, h2⟩
    rcases mem_keys_objDelete h1 with ⟨h3, h4⟩
    exact ⟨h3, by simp [h4, h2]⟩

theorem objGet_mem_of_nodup {α : Type} :
    ∀ (j : List (String × α)), (j.map Prod.fst).Nodup →
      ∀ p ∈ j, objGet j p.1 = Option.some p.2 := by
  intro j
  induction j with
  | nil => intro _ p hp; simp at hp
  | cons q j ih =>
    intro hnd p hp
    simp only [List.map_cons, List.nodup_cons] at hnd
    rcases List.mem_cons.mp hp with h | h
    · subst h; simp [objGet, List.find?]
    · have hne : q.1 ≠ p.1 := by
        intro he
        exact hnd.1 (he ▸ List.mem_map.mpr ⟨p, h, rfl⟩)
      have := ih hnd.2 p h
      simpa [objGet, List.find?, hne] using this

theorem length_filterMap_countP {α β : Type} (f : α → Option β)
    (l : List α) :
    (l.filterMap f).length = l.countP (fun a => (f a).isSome) := by
  induction l with
  | nil => simp
  | cons a l ih => cases h : f a <;>
      simp [List.filterMap_cons, h, ih, List.countP_cons]

theorem ceil_mul_bounds (t p : Nat) (hp : 0 < p) :
    t ≤ ((t + p - 1) / p) * p ∧ ((t + p - 1) / p) * p < t + p := by
  have hd := Nat.div_add_mod (t + p - 1) p
  have hm : (t + p - 1) % p < p := Nat.mod_lt _ hp
  rw [Nat.mul_comm ((t + p - 1) / p) p]
  generalize p * ((t + p - 1) / p) = x at hd ⊢
  omega

/-! ## Claim C2: count() -/

/-- C2 (counterexample): on a chain carrying one join, the SQL the code
executes for `count()` is not the claimed `SELECT COUNT(*)` with the
chain's joins preserved — `DatabaseConnection.count` renders the WHERE
clause only and drops the joins. -/
theorem countQuery_join_counterexample :
    (countQuery "users"
        ((emptyBuilder.join "posts" "users.id" "=" "posts.user_id"
          ).buildQuery)).1 =
      "SELECT COUNT(*) as count FROM users" ∧
    countSqlClaimed "users"
        ((emptyBuilder.join "posts" "users.id" "=" "posts.user_id"
          ).buildQuery) =
      "SELECT COUNT(*) as count FROM users INNER JOIN posts ON users.id = posts.user_id" ∧
    (countQuery "users"
        ((emptyBuilder.join "posts" "users.id" "=" "posts.user_id"
          ).buildQuery)).1 ≠
      countSqlClaimed "users"
        ((emptyBuilder.join "posts" "users.id" "=" "posts.user_id"
          ).buildQuery) := by
  refine ⟨rfl, rfl, ?_⟩
  decide

/-- C2 (amended): `count()` executes a single fresh
`SELECT COUNT(*) FROM …` built from the accumulated wheres only, with
their parameters in order; it ignores the chain's joins as well as its
orders, limit and offset. -/
theorem countQuery_wheres_only (t : String) (b : Builder) :
    countQuery t b.buildQuery =
      ("SELECT COUNT(*) as count FROM " ++ t ++
        (buildWhereClause b.wheres).1,
       (b.wheres.map specParams).flatten) ∧
    (∀ col dir, countQuery t ((b.orderBy col dir).buildQuery) =
      countQuery t b.buildQuery) ∧
    (∀ n, countQuery t ((b.limit n).buildQuery) =
      countQuery t b.buildQuery) ∧
    (∀ n, countQuery t ((b.offset n).buildQuery) =
      countQuery t b.buildQuery) ∧
    (∀ tb f op s, countQuery t ((b.join tb f op s).buildQuery) =
      countQuery t b.buildQuery) := by
  refine ⟨?_, fun col dir => rfl, fun n => rfl, fun n => rfl,
    fun tb f op s => rfl⟩
  show ("SELECT COUNT(*) as count FROM " ++ t ++
      (buildWhereClause b.wheres).1, (buildWhereClause b.wheres).2) = _
  rw [buildWhereClause_params]

/-! ## Claim C4: clone() -/

/-- C4 (counterexample): a builder whose `_showHidden` flag is set is
cloned into a builder whose flag is `false`; the clone does not carry
the flag over. -/
theorem clone_showHidden_counterexample :
    ¬ ((Builder.clone { showHidden := true }).showHidden =
        ({ showHidden := true } : Builder).showHidden) := by
  decide

/-- C4 (amended): `clone()` produces a builder whose IR (columns,
wheres, orders, joins, distinct, groupBys, havings, limit, offset,
eager-load declarations) is structurally equal to the original's — in a
pure model, mutations of the copy cannot affect the original — but its
`_showHidden` flag is reset to `false` rather than carried over. -/
theorem clone_ir_eq_showHidden_reset (b : Builder) :
    (b.clone).buildQuery = b.buildQuery ∧
    (b.clone).withRelations = b.withRelations ∧
    (b.clone).withConstraints = b.withConstraints ∧
    (b.clone).showHidden = false :=
  ⟨rfl, rfl, rfl, rfl⟩

/-! ## Claim C10: between placeholders vs parameters -/

/-- C10: a `between` predicate's compiled fragment carries exactly two
placeholders (`col BETWEEN ? AND ?`) while the parameter vector
receives one entry per element of the supplied array; under the
two-element precondition the counts agree, so no arity mismatch can
arise. -/
theorem between_placeholder_param_counts (boolean c : String)
    (vs : List Val) (hb : countQmarks boolean = 0)
    (hc : countQmarks c = 0) :
    countQmarks (predPiece boolean
      { type := WhereType.between, column := c, values := vs }).1 = 2 ∧
    (predPiece boolean
      { type := WhereType.between, column := c, values := vs }).2.length =
      vs.length ∧
    (vs.length = 2 →
      countQmarks (predPiece boolean
        { type := WhereType.between, column := c, values := vs }).1 =
      (predPiece boolean
        { type := WhereType.between, column := c, values := vs
          }).2.length) := by
  have h1 : countQmarks (predPiece boolean
      { type := WhereType.between, column := c, values := vs }).1 = 2 := by
    show countQmarks (boolean ++ " " ++ c ++ " BETWEEN ? AND ?") = 2
    rw [countQmarks_append, countQmarks_append, countQmarks_append, hb, hc]
    decide
  refine ⟨h1, rfl, fun h2 => ?_⟩
  rw [h1]
  show 2 = vs.length
  omega

/-! ## Claim C5: toJSON hidden projection -/

/-- C5 (counterexample): with `hidden = ["secret"]` and the flag off, a
relation-cache entry named `secret` re-introduces the hidden key —
`toJSON` overlays the relation cache after deleting hidden keys. -/
theorem toJSON_hidden_relation_counterexample :
    ({ table := "u", hidden := ["secret"] } : ModelClass).hidden =
      ["secret"] ∧
    ({ attributes := [("id", Val.vInt 1), ("secret", Val.vStr "x")],
       original := [], existsFlag := true, showHidden := false,
       relations := [("secret", RelVal.rnull)] } : Ent).showHidden =
      false ∧
    "secret" ∈ (toJSON { table := "u", hidden := ["secret"] }
      { attributes := [("id", Val.vInt 1), ("secret", Val.vStr "x")],
        original := [], existsFlag := true, showHidden := false,
        relations := [("secret", RelVal.rnull)] }).map Prod.fst := by
  refine ⟨rfl, rfl, ?_⟩
  decide

/-- C5 (amended): with the flag off, `toJSON` contains no key of the
hidden set unless that key also names an entry of the relation cache
(the cache is overlaid after the hidden keys are deleted). -/
theorem toJSON_hidden_excluded (cls : ModelClass) (e : Ent) (k : String)
    (hk : k ∈ cls.hidden) (hs : e.showHidden = false)
    (hr : k ∉ e.relations.map Prod.fst) :
    k ∉ (toJSON cls e).map Prod.fst := by
  intro hmem
  simp only [toJSON, hs, if_false] at hmem
  rcases mem_keys_objAssignAll _ _ _ hmem with h | h
  · exact (mem_keys_hiddenFold cls.hidden _ k h).2 hk
  · exact hr (by simpa using h)

/-- C5 (witness): a concrete hidden key that names no relation entry is
absent from the serialized object. -/
theorem toJSON_hidden_excluded_witness :
    "pw" ∈ ({ table := "u", hidden := ["pw"] } : ModelClass).hidden ∧
    ({ attributes := [("id", Val.vInt 1), ("pw", Val.vStr "x")],
       original := [], existsFlag := true, showHidden := false,
       relations := [] } : Ent).showHidden = false ∧
    "pw" ∉ (({ attributes := [("id", Val.vInt 1), ("pw", Val.vStr "x")],
               original := [], existsFlag := true, showHidden := false,
               relations := [] } : Ent).relations.map Prod.fst) ∧
    "pw" ∉ (toJSON { table := "u", hidden := ["pw"] }
      { attributes := [("id", Val.vInt 1), ("pw", Val.vStr "x")],
        original := [], existsFlag := true, showHidden := false,
        relations := [] }).map Prod.fst :=
  ⟨by decide, rfl, by decide,
    toJSON_hidden_excluded _ _ _ (by decide) rfl (by decide)⟩

/-! ## Claim C6: int cast on non-numeric input -/

/-- Helper: `parseInt` yields NaN exactly when no leading digit
exists. -/
theorem jsParseInt_eq_nan_of_nonNumeric (s : String)
    (h : nonNumericStr s = true) : jsParseInt s = Val.vNaN := by
  unfold jsParseInt
  unfold nonNumericStr at h
  simp only [h, if_true]

/-- C6 (counterexample): an int-cast attribute set from the non-numeric
string `"abc"` stores the value NaN; no casting error is raised and the
operation returns a value. -/
theorem castInt_nonNumeric_counterexample :
    castAttribute usersIntCls "age" (Val.vStr "abc") = Val.vNaN ∧
    (setAttribute usersIntCls emptyEnt "age" (Val.vStr "abc")).attributes =
      [("age", Val.vNaN)] := by
  exact ⟨by decide, by decide⟩

/-- C6 (amended): for an attribute whose declared cast is int, every
non-null value with no leading base-10 digit casts to NaN
(`parseInt(value, 10)` semantics); setting stores NaN and the typed
accessor reads NaN back — the code returns this value instead of
failing. -/
theorem castInt_nonNumeric_yields_nan (cls : ModelClass) (e : Ent)
    (k : String) (v : Val)
    (hc : objGet cls.casts k = Option.some CastKind.int)
    (hv : v ≠ Val.vNull)
    (hn : nonNumericStr (jsToString v) = true)
    (hr : relSlotTruthy (objGet e.relations k) = false) :
    castAttribute cls k v = Val.vNaN ∧
    getAttribute cls (setAttribute cls e k v) k = Dyn.v Val.vNaN := by
  have hcast : castAttribute cls k v = Val.vNaN := by
    unfold castAttribute
    rw [hc]
    simp [hv, jsParseInt_eq_nan_of_nonNumeric _ hn]
  refine ⟨hcast, ?_⟩
  have hrel : (setAttribute cls e k v).relations = e.relations := rfl
  have hattr : objGet (setAttribute cls e k v).attributes k =
      Option.some (castAttribute cls k v) := objGet_objSetD_self _ _ _
  unfold getAttribute
  rw [hrel, hr]
  simp only [Bool.false_eq_true, if_false, hattr, hcast, Option.getD_some]
  unfold castAttribute
  rw [hc]
  simp only [if_neg (by decide : ¬ (Val.vNaN = Val.vNull))]
  decide

/-- C6 (witness): the hypotheses hold for `"abc"` cast to int; the
stored and re-read value is NaN. -/
theorem castInt_nonNumeric_yields_nan_witness :
    objGet usersIntCls.casts "age" = Option.some CastKind.int ∧
    Val.vStr "abc" ≠ Val.vNull ∧
    nonNumericStr (jsToString (Val.vStr "abc")) = true ∧
    relSlotTruthy (objGet emptyEnt.relations "age") = false ∧
    (castAttribute usersIntCls "age" (Val.vStr "abc") = Val.vNaN ∧
      getAttribute usersIntCls
        (setAttribute usersIntCls emptyEnt "age" (Val.vStr "abc"))
        "age" = Dyn.v Val.vNaN) :=
  ⟨by decide, by decide, by decide, by decide,
    castInt_nonNumeric_yields_nan _ _ _ _ (by decide) (by decide)
      (by decide) (by decide)⟩

/-! ## Claim C9: hydration yields a clean entity -/

/-- C9: every entity hydrated from a raw row has `exists = true`, an
original snapshot equal to its attributes, an empty dirty set and
`isDirty() = false` (rows, being JS objects, have pairwise-distinct
keys). -/
theorem hydrate_clean (b : Builder) (row : Obj)
    (hnd : (row.map Prod.fst).Nodup) :
    (hydrate b row).existsFlag = true ∧
    (hydrate b row).original = (hydrate b row).attributes ∧
    getDirty (hydrate b row) = [] ∧
    isDirty (hydrate b row) = false := by
  have hd : getDirty (hydrate b row) = [] := by
    unfold getDirty hydrate
    rw [List.filter_eq_nil_iff]
    intro p hp
    have hself := objGet_mem_of_nodup row hnd p hp
    simp [hself]
  exact ⟨rfl, rfl, hd, by simp [isDirty, hd]⟩

/-- C9 (witness): a concrete two-column row hydrates clean. -/
theorem hydrate_clean_witness :
    (([("id", Val.vInt 1), ("name", Val.vStr "A")] : Obj).map
      Prod.fst).Nodup ∧
    ((hydrate emptyBuilder [("id", Val.vInt 1), ("name", Val.vStr "A")]
        ).existsFlag = true ∧
      (hydrate emptyBuilder [("id", Val.vInt 1), ("name", Val.vStr "A")]
        ).original =
      (hydrate emptyBuilder [("id", Val.vInt 1), ("name", Val.vStr "A")]
        ).attributes ∧
      getDirty (hydrate emptyBuilder
        [("id", Val.vInt 1), ("name", Val.vStr "A")]) = [] ∧
      isDirty (hydrate emptyBuilder
        [("id", Val.vInt 1), ("name", Val.vStr "A")]) = false) :=
  ⟨by decide, hydrate_clean emptyBuilder _ (by decide)⟩

/-- Helper: a type that does not resolve in the morph map has no entry
among the per-type maps built by the eager loader. -/
theorem objGet_morphTypeMaps_none (map : MorphMap) (db : DB)
    (groups : List (String × List Val)) (k : String)
    (hk : resolveMorphClass map k = Option.none) :
    objGet (morphTypeMaps map db groups) k = Option.none := by
  induction groups with
  | nil => simp [morphTypeMaps, objGet]
  | cons g gs ih =>
    unfold morphTypeMaps at ih ⊢
    rw [List.filterMap_cons]
    cases hr : resolveMorphClass map g.1 with
    | none => simpa [hr] using ih
    | some cls =>
      have hne : ¬ (g.1 = k) := by
        intro he
        rw [he, hk] at hr
        cases hr
      simpa [hr, objGet, List.find?, hne] using ih

/-- Helper: a non-empty page slice forces a non-empty base list. -/
theorem pos_of_take_drop_pos {α : Type} (l : List α) (o n : Nat)
    (h : 0 < ((l.drop o).take n).length) : 0 < l.length := by
  cases l with
  | nil => simp at h
  | cons a l => simp

/-! ## Claim C1: eager-load query counts -/

/-- C1 (counterexample): a morphTo eager load over three children with
three distinct resolvable aliases issues 3 driver queries, violating the
claimed bound of 2; and a belongsToMany eager load with matching pivot
rows issues 2 queries, not the claimed 1. -/
theorem eagerLoad_counts_counterexample :
    (morphToEagerLoad morphMap3 [] commentableCfg morphChildren3
      "commentable").2 = 3 ∧
    ¬ ((morphToEagerLoad morphMap3 [] commentableCfg morphChildren3
      "commentable").2 ≤ 2) ∧
    (belongsToManyEagerLoad btmDb rolesBtmCfg [userEnt1] "roles").2 = 2 ∧
    (belongsToManyEagerLoad btmDb rolesBtmCfg [userEnt1] "roles").2 ≠ 1 :=
  ⟨by decide, by decide, by decide, by decide⟩

/-- C1 (amended): per non-empty batch and relation, eager loading issues
at most 1 query for hasOne/hasMany/belongsTo, exactly 1 for
morphOne/morphMany, at most 2 for belongsToMany (pivot plus related)
and for the through variants — all independent of the batch — while
morphTo issues exactly one query per distinct morph type (with truthy
type and id) that resolves in the morph map, a number not bounded by
2. -/
theorem eagerLoad_query_counts (db : DB) (relName : String)
    (models : List Ent) (_hm : models ≠ [])
    (h1 : HasRel) (bt : BelongsToRel) (mo : MorphRel) (btm : BtmRel)
    (th : ThroughRel) (map : MorphMap) (mt : MorphToRel) :
    (hasOneEagerLoad db h1 models relName).2 ≤ 1 ∧
    (hasManyEagerLoad db h1 models relName).2 ≤ 1 ∧
    (belongsToEagerLoad db bt models relName).2 ≤ 1 ∧
    (morphOneEagerLoad db mo models relName).2 = 1 ∧
    (morphManyEagerLoad db mo models relName).2 = 1 ∧
    (belongsToManyEagerLoad db btm models relName).2 ≤ 2 ∧
    (hasManyThroughEagerLoad db th models relName).2 ≤ 2 ∧
    (hasOneThroughEagerLoad db th models relName).2 ≤ 2 ∧
    (morphToEagerLoad map db mt models relName).2 =
      ((morphGroups mt models).map Prod.fst).countP
        (fun t => (resolveMorphClass map t).isSome) := by
  refine ⟨?_, ?_, ?_, rfl, rfl, ?_, ?_, ?_, ?_⟩
  · simp only [hasOneEagerLoad]
    split <;> simp
  · simp only [hasManyEagerLoad]
    split <;> simp
  · simp only [belongsToEagerLoad]
    split <;> simp
  · simp only [belongsToManyEagerLoad]
    split
    · simp
    · split <;> simp
  · simp only [hasManyThroughEagerLoad]
    split
    · simp
    · split <;> simp
  · simp only [hasOneThroughEagerLoad]
    split
    · simp
    · split <;> simp
  · show (morphTypeMaps map db (morphGroups mt models)).length = _
    unfold morphTypeMaps
    rw [length_filterMap_countP, List.countP_map]
    apply List.countP_congr
    intro g _
    cases hr : resolveMorphClass map g.1 <;> simp [hr, Function.comp]

/-- C1 (witness): the bounds hold at a one-parent batch with concrete
relation configurations. -/
theorem eagerLoad_query_counts_witness :
    ([userEnt1] ≠ ([] : List Ent)) ∧
    ((hasOneEagerLoad btmDb samplePostsHasCfg [userEnt1] "rel").2 ≤ 1 ∧
      (hasManyEagerLoad btmDb samplePostsHasCfg [userEnt1] "rel").2 ≤
        1 ∧
      (belongsToEagerLoad btmDb samplePostBelongsCfg [userEnt1]
        "rel").2 ≤ 1 ∧
      (morphOneEagerLoad btmDb sampleMorphCfg [userEnt1] "rel").2 = 1 ∧
      (morphManyEagerLoad btmDb sampleMorphCfg [userEnt1] "rel").2 =
        1 ∧
      (belongsToManyEagerLoad btmDb rolesBtmCfg [userEnt1] "rel").2 ≤
        2 ∧
      (hasManyThroughEagerLoad btmDb sampleThroughCfg [userEnt1]
        "rel").2 ≤ 2 ∧
      (hasOneThroughEagerLoad btmDb sampleThroughCfg [userEnt1]
        "rel").2 ≤ 2 ∧
      (morphToEagerLoad postsOnlyMap btmDb commentableCfg [userEnt1]
        "rel").2 =
        ((morphGroups commentableCfg [userEnt1]).map Prod.fst).countP
          (fun t => (resolveMorphClass postsOnlyMap t).isSome)) :=
  ⟨by decide,
    eagerLoad_query_counts btmDb "rel" [userEnt1] (by decide)
      samplePostsHasCfg samplePostBelongsCfg sampleMorphCfg rolesBtmCfg
      sampleThroughCfg postsOnlyMap commentableCfg⟩

/-! ## Claim C3: rollback order -/

/-- C3 (code bug): two units applied in one batch; `rollback(1)` selects
both rows and invokes `down()` on the older unit first — the SQL orders
descending and the loop reverses again — while both tracking rows are
deleted after their `down()` succeeded. -/
theorem rollback_order_eval :
    (rollback [("m1", true), ("m2", true)]
      [{ id := 1, migration := "m1", batch := 1 },
       { id := 2, migration := "m2", batch := 1 }] 1).1 = ["m1", "m2"] ∧
    (["m1", "m2"] : List String) ≠ ["m2", "m1"] ∧
    (rollback [("m1", true), ("m2", true)]
      [{ id := 1, migration := "m1", batch := 1 },
       { id := 2, migration := "m2", batch := 1 }] 1).2 = [] :=
  ⟨by decide, by decide, by decide⟩

/-! ## Claim C7: unresolved morph alias -/

/-- C7 (counterexample): the alias `videos` is truthy and absent from
the morph map, the target row exists, yet `get` returns null — no
MorphUnresolved failure occurs. -/
theorem morphTo_unresolved_counterexample :
    valTruthy (modelKey commentsCls videosChild "commentable_type") =
      true ∧
    resolveMorphClass postsOnlyMap "videos" = Option.none ∧
    morphToGet postsOnlyMap videosDb commentableCfg videosChild =
      Option.none :=
  ⟨by decide, by decide, by decide⟩

/-- C7 (amended): when the type column holds a truthy alias without a
morph-map entry (and the id is truthy), `get` returns null and the
eager loader leaves the child untouched in the batch; no error is
raised. -/
theorem morphTo_unresolved_returns_null (map : MorphMap) (db : DB)
    (cfg : MorphToRel) (child : Ent)
    (ht : valTruthy (modelKey cfg.childCls child cfg.typeColumn) = true)
    (hi : valTruthy (modelKey cfg.childCls child cfg.idColumn) = true)
    (hmap : resolveMorphClass map
      (jsToString (modelKey cfg.childCls child cfg.typeColumn)) =
      Option.none) :
    morphToGet map db cfg child = Option.none ∧
    ∀ (models : List Ent) (relName : String), child ∈ models →
      child ∈ (morphToEagerLoad map db cfg models relName).1 := by
  constructor
  · simp [morphToGet, ht, hi, hmap]
  · intro models relName hmem
    show child ∈ models.map _
    refine List.mem_map.mpr ⟨child, hmem, ?_⟩
    have hnone :=
      objGet_morphTypeMaps_none map db (morphGroups cfg models) _ hmap
    simp [ht, hi, hnone]

/-- C7 (witness): the hypotheses hold at the `videos` child and the
conclusions follow. -/
theorem morphTo_unresolved_returns_null_witness :
    valTruthy (modelKey commentableCfg.childCls videosChild
      commentableCfg.typeColumn) = true ∧
    valTruthy (modelKey commentableCfg.childCls videosChild
      commentableCfg.idColumn) = true ∧
    resolveMorphClass postsOnlyMap
      (jsToString (modelKey commentableCfg.childCls videosChild
        commentableCfg.typeColumn)) = Option.none ∧
    (morphToGet postsOnlyMap videosDb commentableCfg videosChild =
        Option.none ∧
      ∀ (models : List Ent) (relName : String), videosChild ∈ models →
        videosChild ∈
          (morphToEagerLoad postsOnlyMap videosDb commentableCfg models
            relName).1) :=
  ⟨by decide, by decide, by decide,
    morphTo_unresolved_returns_null postsOnlyMap videosDb commentableCfg
      videosChild (by decide) (by decide) (by decide)⟩

/-! ## Claim C8: pagination result -/

/-- C8: for `page ≥ 1` and `perPage ≥ 1`, the pagination result carries
`per_page = perPage`, `current_page = page`, `last_page` the ceiling of
`total / perPage` (characterised by its two multiplicative bounds),
`from = (page-1)*perPage + 1` when `total > 0` and null otherwise,
`to = (page-1)*perPage + |data|`, and hence `from + |data| - 1 = to`
whenever `|data| > 0`. -/
theorem paginate_fields (db : DB) (cls : ModelClass) (b : Builder)
    (page perPage : Nat) (_hpage : 1 ≤ page) (hper : 1 ≤ perPage) :
    (paginate db cls b page perPage).per_page = perPage ∧
    (paginate db cls b page perPage).current_page = page ∧
    (paginate db cls b page perPage).total ≤
      (paginate db cls b page perPage).last_page * perPage ∧
    (paginate db cls b page perPage).last_page * perPage <
      (paginate db cls b page perPage).total + perPage ∧
    (paginate db cls b page perPage).pageFrom =
      (if 0 < (paginate db cls b page perPage).total then
        Option.some ((page - 1) * perPage + 1) else Option.none) ∧
    (paginate db cls b page perPage).pageTo =
      (page - 1) * perPage +
        (paginate db cls b page perPage).data.length ∧
    (0 < (paginate db cls b page perPage).data.length →
      (paginate db cls b page perPage).pageFrom =
        Option.some ((page - 1) * perPage + 1) ∧
      (page - 1) * perPage + 1 +
        (paginate db cls b page perPage).data.length - 1 =
        (paginate db cls b page perPage).pageTo) := by
  obtain ⟨h1, h2⟩ :=
    ceil_mul_bounds (connCount db cls.table b.buildQuery) perPage hper
  refine ⟨rfl, rfl, h1, h2, rfl, rfl, ?_⟩
  intro hlen
  have he : (paginate db cls b page perPage).data.length =
      (((matchingRows db cls.table b.wheres).drop
        ((page - 1) * perPage)).take perPage).length := by
    simp [paginate, bGet, dbSelect, Builder.buildQuery, Builder.offset,
      Builder.limit]
  have htot : (paginate db cls b page perPage).total =
      (matchingRows db cls.table b.wheres).length := rfl
  have hpos : 0 < (paginate db cls b page perPage).total := by
    rw [htot]
    exact pos_of_take_drop_pos _ _ _ (he ▸ hlen)
  constructor
  · show (if 0 < (paginate db cls b page perPage).total then _ else _) = _
    rw [if_pos hpos]
  · have hto : (paginate db cls b page perPage).pageTo =
        (page - 1) * perPage +
          (paginate db cls b page perPage).data.length := rfl
    omega

/-- C8 (witness): three matching rows paginated at page 2, two per
page. -/
theorem paginate_fields_witness :
    (1 ≤ 2) ∧ (1 ≤ 2) ∧
    ((paginate [("users", [[("id", Val.vInt 1)], [("id", Val.vInt 2)],
        [("id", Val.vInt 3)]])] usersCls emptyBuilder 2 2).per_page =
      2 ∧
    (paginate [("users", [[("id", Val.vInt 1)], [("id", Val.vInt 2)],
        [("id", Val.vInt 3)]])] usersCls emptyBuilder 2 2
      ).current_page = 2 ∧
    (paginate [("users", [[("id", Val.vInt 1)], [("id", Val.vInt 2)],
        [("id", Val.vInt 3)]])] usersCls emptyBuilder 2 2).total ≤
      (paginate [("users", [[("id", Val.vInt 1)], [("id", Val.vInt 2)],
        [("id", Val.vInt 3)]])] usersCls emptyBuilder 2 2).last_page *
        2 ∧
    (paginate [("users", [[("id", Val.vInt 1)], [("id", Val.vInt 2)],
        [("id", Val.vInt 3)]])] usersCls emptyBuilder 2 2).last_page *
        2 <
      (paginate [("users", [[("id", Val.vInt 1)], [("id", Val.vInt 2)],
        [("id", Val.vInt 3)]])] usersCls emptyBuilder 2 2).total + 2 ∧
    (paginate [("users", [[("id", Val.vInt 1)], [("id", Val.vInt 2)],
        [("id", Val.vInt 3)]])] usersCls emptyBuilder 2 2).pageFrom =
      (if 0 < (paginate [("users", [[("id", Val.vInt 1)],
          [("id", Val.vInt 2)], [("id", Val.vInt 3)]])] usersCls
          emptyBuilder 2 2).total then
        Option.some ((2 - 1) * 2 + 1) else Option.none) ∧
    (paginate [("users", [[("id", Val.vInt 1)], [("id", Val.vInt 2)],
        [("id", Val.vInt 3)]])] usersCls emptyBuilder 2 2).pageTo =
      (2 - 1) * 2 + (paginate [("users", [[("id", Val.vInt 1)],
        [("id", Val.vInt 2)], [("id", Val.vInt 3)]])] usersCls
        emptyBuilder 2 2).data.length ∧
    (0 < (paginate [("users", [[("id", Val.vInt 1)], [("id", Val.vInt 2)],
        [("id", Val.vInt 3)]])] usersCls emptyBuilder 2 2
        ).data.length →
      (paginate [("users", [[("id", Val.vInt 1)], [("id", Val.vInt 2)],
          [("id", Val.vInt 3)]])] usersCls emptyBuilder 2 2).pageFrom =
        Option.some ((2 - 1) * 2 + 1) ∧
      (2 - 1) * 2 + 1 +
        (paginate [("users", [[("id", Val.vInt 1)], [("id", Val.vInt 2)],
          [("id", Val.vInt 3)]])] usersCls emptyBuilder 2 2
          ).data.length - 1 =
        (paginate [("users", [[("id", Val.vInt 1)], [("id", Val.vInt 2)],
          [("id", Val.vInt 3)]])] usersCls emptyBuilder 2 2).pageTo)) :=
  ⟨by decide, by decide,
    paginate_fields [("users", [[("id", Val.vInt 1)], [("id", Val.vInt 2)],
      [("id", Val.vInt 3)]])] usersCls emptyBuilder 2 2 (by decide)
      (by decide)⟩

/-- C10 (witness): the placeholder-free side conditions hold at a
concrete predicate and the counts agree there. -/
theorem between_placeholder_param_counts_witness :
    countQmarks "WHERE" = 0 ∧ countQmarks "age" = 0 ∧
    (countQmarks (predPiece "WHERE"
      { type := WhereType.between, column := "age",
        values := [Val.vInt 1, Val.vInt 5] }).1 = 2 ∧
    (predPiece "WHERE"
      { type := WhereType.between, column := "age",
        values := [Val.vInt 1, Val.vInt 5] }).2.length = 2 ∧
    ([Val.vInt 1, Val.vInt 5].length = 2 →
      countQmarks (predPiece "WHERE"
        { type := WhereType.between, column := "age",
          values := [Val.vInt 1, Val.vInt 5] }).1 =
      (predPiece "WHERE"
        { type := WhereType.between, column := "age",
          values := [Val.vInt 1, Val.vInt 5] }).2.length)) :=
  ⟨by decide, by decide,
    between_placeholder_param_counts "WHERE" "age"
      [Val.vInt 1, Val.vInt 5] (by decide) (by decide)⟩

end OutletOrm
